import Mathlib

/-!
Verification of the ITR-filing core (tax engine and record store) against its
specification.  The tax engine (`TaxCalculator`) from `src/lib/tax-calculations.ts`
is embedded as pure functions over `ℚ` (JavaScript numbers on these decimal
inputs behave as exact decimal arithmetic, modelled by rationals; the `Infinity`
upper bound of the top slab is modelled by `Option.none`).  The record store
(`ITRStorage`) is embedded as explicit state passing over the persisted
substrate (the single `localStorage` key), with the host-provided JSON
serialization abstracted as a codec and notification modelled as an output list.
-/

namespace ITR

/-- One tax bracket: `min`/`max` bounds and a percentage `rate`.
`max = none` models the `Infinity` upper bound of the top slab. -/
structure TaxSlab where
  min : ℚ
  max : Option ℚ
  rate : ℚ
deriving Repr, DecidableEq

/-- Tax slabs for AY 2024-25, old regime (the live table in the source,
whose `min` bounds are 250001 / 500001 / 1000001). -/
def TAX_SLABS_OLD : List TaxSlab :=
  [ ⟨0, some 250000, 0⟩,
    ⟨250001, some 500000, 5⟩,
    ⟨500001, some 1000000, 20⟩,
    ⟨1000001, none, 30⟩ ]

/-- Tax slabs for AY 2024-25, new regime (the live table in the source). -/
def TAX_SLABS_NEW : List TaxSlab :=
  [ ⟨0, some 300000, 0⟩,
    ⟨300001, some 600000, 5⟩,
    ⟨600001, some 900000, 10⟩,
    ⟨900001, some 1200000, 15⟩,
    ⟨1200001, some 1500000, 20⟩,
    ⟨1500001, none, 30⟩ ]

/-- An employer record from the income-details schema. -/
structure Employer where
  id : String
  employerName : String
  employerPan : String
  grossSalary : ℚ
  basicSalary : ℚ
  hra : ℚ
  otherAllowances : ℚ
  professionalTax : ℚ
  tdsDeducted : ℚ
  fromDate : String
  toDate : String
deriving Repr, DecidableEq

/-- The property-type enum of the house-property schema. -/
inductive PropertyType where
  | selfOccupied
  | letOut
  | deemedLetOut
deriving Repr, DecidableEq

/-- A house-property record from the income-details schema. -/
structure PropertyUnit where
  id : String
  propertyType : PropertyType
  address : String
  annualValue : ℚ
  municipalTax : ℚ
  interestOnLoan : ℚ
  otherExpenses : ℚ
deriving Repr, DecidableEq

/-- The salary-income sub-record: a `hasIncome` gate and a list of employers. -/
structure SalaryIncome where
  hasIncome : Bool
  employers : List Employer
deriving Repr, DecidableEq

/-- The house-property sub-record: a `hasIncome` gate and a list of properties. -/
structure HousePropertyIncome where
  hasIncome : Bool
  properties : List PropertyUnit
deriving Repr, DecidableEq

/-- The capital-gains sub-record of the income-details schema. -/
structure CapitalGains where
  hasIncome : Bool
  shortTermGains : ℚ
  longTermGains : ℚ
  exemptLongTermGains : ℚ
deriving Repr, DecidableEq

/-- The other-sources sub-record of the income-details schema. -/
structure OtherSources where
  hasIncome : Bool
  interestIncome : ℚ
  dividendIncome : ℚ
  otherIncome : ℚ
deriving Repr, DecidableEq

/-- `IncomeDetails`: the four independently toggleable income sub-records. -/
structure IncomeDetails where
  salaryIncome : SalaryIncome
  housePropertyIncome : HousePropertyIncome
  capitalGains : CapitalGains
  otherSources : OtherSources
deriving Repr, DecidableEq

/-- The Section-80C bucket: eight investment fields. -/
structure Section80C where
  lifeInsurance : ℚ
  epf : ℚ
  ppf : ℚ
  elss : ℚ
  nsc : ℚ
  homeLoanPrincipal : ℚ
  tuitionFees : ℚ
  other80C : ℚ
deriving Repr, DecidableEq

/-- `Object.values` of a `Section80C` record, in schema insertion order. -/
def Section80C.values (c : Section80C) : List ℚ :=
  [c.lifeInsurance, c.epf, c.ppf, c.elss, c.nsc, c.homeLoanPrincipal,
   c.tuitionFees, c.other80C]

/-- The Section-80D bucket: four insurance-premium fields. -/
structure Section80D where
  healthInsuranceSelf : ℚ
  healthInsuranceFamily : ℚ
  healthInsuranceParents : ℚ
  preventiveHealthCheckup : ℚ
deriving Repr, DecidableEq

/-- `Object.values` of a `Section80D` record, in schema insertion order. -/
def Section80D.values (d : Section80D) : List ℚ :=
  [d.healthInsuranceSelf, d.healthInsuranceFamily, d.healthInsuranceParents,
   d.preventiveHealthCheckup]

/-- The donation deduction-percentage enum (`'50' | '100'`). -/
inductive DeductionPercentage where
  | p50
  | p100
deriving Repr, DecidableEq

/-- A Section-80G donation record. -/
structure Donation where
  id : String
  doneeInstitution : String
  doneeAddress : String
  doneePan : String
  amount : ℚ
  deductionPercentage : DeductionPercentage
  qualifyingAmount : ℚ
deriving Repr, DecidableEq

/-- The other-deductions bucket: 80E, the 80G donation list, 80TTA and 80U. -/
structure OtherDeductions where
  section80E : ℚ
  section80G : List Donation
  section80TTA : ℚ
  section80U : ℚ
deriving Repr, DecidableEq

/-- `Deductions`: the three deduction buckets of the schema. -/
structure Deductions where
  section80C : Section80C
  section80D : Section80D
  otherDeductions : OtherDeductions
deriving Repr, DecidableEq

/-- The result record of the complete tax computation. -/
structure TaxCalculation where
  totalIncome : ℚ
  totalDeductions : ℚ
  taxableIncome : ℚ
  taxBeforeRelief : ℚ
  surcharge : ℚ
  educationCess : ℚ
  totalTaxLiability : ℚ
deriving Repr, DecidableEq

namespace TaxCalculator

/-- `TaxCalculator.calculateTotalIncome`: sums, per enabled sub-record only,
gross salaries, net property income floored at 0, capital gains, and
other-source income. -/
def calculateTotalIncome (incomeDetails : IncomeDetails) : ℚ :=
  let t0 : ℚ := 0
  let t1 :=
    if incomeDetails.salaryIncome.hasIncome then
      incomeDetails.salaryIncome.employers.foldl
        (fun acc employer => acc + employer.grossSalary) t0
    else t0
  let t2 :=
    if incomeDetails.housePropertyIncome.hasIncome then
      incomeDetails.housePropertyIncome.properties.foldl
        (fun acc property =>
          let netIncome := property.annualValue - property.municipalTax -
            property.interestOnLoan - property.otherExpenses
          acc + max netIncome 0) t1
    else t1
  let t3 :=
    if incomeDetails.capitalGains.hasIncome then
      t2 + incomeDetails.capitalGains.shortTermGains +
        incomeDetails.capitalGains.longTermGains
    else t2
  if incomeDetails.otherSources.hasIncome then
    t3 + incomeDetails.otherSources.interestIncome +
      incomeDetails.otherSources.dividendIncome +
      incomeDetails.otherSources.otherIncome
  else t3

/-- `TaxCalculator.calculateTotalDeductions`: 80C total clamped at 150000,
plus the 80D total, 80E, 80TTA, 80U, and every donation's qualifying amount. -/
def calculateTotalDeductions (deductions : Deductions) : ℚ :=
  let section80CTotal := deductions.section80C.values.foldl (· + ·) 0
  let td1 := 0 + min section80CTotal 150000
  let section80DTotal := deductions.section80D.values.foldl (· + ·) 0
  let td2 := td1 + section80DTotal
  let td3 := td2 + deductions.otherDeductions.section80E +
    deductions.otherDeductions.section80TTA + deductions.otherDeductions.section80U
  deductions.otherDeductions.section80G.foldl
    (fun acc donation => acc + donation.qualifyingAmount) td3

/-- The amount taxed inside one slab:
`Math.min(taxableIncome - slab.min, slab.max - slab.min)`, where
`slab.max = Infinity` (modelled `none`) makes the second operand `Infinity`. -/
def slabAmount (taxableIncome : ℚ) (s : TaxSlab) : ℚ :=
  match s.max with
  | none => taxableIncome - s.min
  | some m => min (taxableIncome - s.min) (m - s.min)

/-- `TaxCalculator.calculateTax`: marginal slab computation over the selected
regime's table. -/
def calculateTax (taxableIncome : ℚ) (useNewRegime : Bool) : ℚ :=
  let slabs := if useNewRegime then TAX_SLABS_NEW else TAX_SLABS_OLD
  slabs.foldl
    (fun tax slab =>
      if taxableIncome > slab.min then
        tax + slabAmount taxableIncome slab * slab.rate / 100
      else tax) 0

/-- `TaxCalculator.calculateSurcharge`: a five-band step function of
taxable income applied as a flat percentage of the base tax. -/
def calculateSurcharge (taxableIncome : ℚ) (baseTax : ℚ) : ℚ :=
  if taxableIncome ≤ 5000000 then 0
  else if taxableIncome ≤ 10000000 then baseTax * 0.10
  else if taxableIncome ≤ 20000000 then baseTax * 0.15
  else if taxableIncome ≤ 50000000 then baseTax * 0.25
  else baseTax * 0.37

/-- `TaxCalculator.calculateEducationCess`: flat 4% of tax plus surcharge. -/
def calculateEducationCess (taxAndSurcharge : ℚ) : ℚ :=
  taxAndSurcharge * 0.04

/-- `TaxCalculator.calculateCompleteTax`: composes the computations above;
deductions are forced to 0 under the new regime and taxable income is
floored at 0. -/
def calculateCompleteTax (incomeDetails : IncomeDetails) (deductions : Deductions)
    (useNewRegime : Bool) : TaxCalculation :=
  let totalIncome := calculateTotalIncome incomeDetails
  let totalDeductions := if useNewRegime then 0 else calculateTotalDeductions deductions
  let taxableIncome := max (totalIncome - totalDeductions) 0
  let taxBeforeRelief := calculateTax taxableIncome useNewRegime
  let surcharge := calculateSurcharge taxableIncome taxBeforeRelief
  let taxAfterSurcharge := taxBeforeRelief + surcharge
  let educationCess := calculateEducationCess taxAfterSurcharge
  let totalTaxLiability := taxAfterSurcharge + educationCess
  { totalIncome := totalIncome
    totalDeductions := totalDeductions
    taxableIncome := taxableIncome
    taxBeforeRelief := taxBeforeRelief
    surcharge := surcharge
    educationCess := educationCess
    totalTaxLiability := totalTaxLiability }

end TaxCalculator

/-! ## The record store (`ITRStorage`)

`Partial<ITRData>` is a record whose four section keys may each be absent.
The store never inspects a section's contents (it only copies whole section
values and serializes them), so section payloads are modelled by an opaque
type `V`; the serialized text type is likewise a parameter `S`, with the
host's `JSON.stringify` / `JSON.parse` pair abstracted as a codec.  The
`localStorage` substrate under the single fixed key is an `Option S`
(`none` = key absent), and `localStorage.setItem` may be rejected by the
host (quota), modelled by a `writeOk` flag; a rejected write throws, so the
rest of the `try` block (including `notifyListeners`) is skipped and the
`catch` only logs.  Notifications delivered to subscribers are returned as
an output list of snapshots. -/

/-- A partial ITR snapshot: any subset of the four top-level sections,
section payloads opaque to the store. -/
structure PartialData (V : Type) where
  personalDetails : Option V
  incomeDetails : Option V
  deductions : Option V
  taxSummary : Option V
deriving Repr, DecidableEq

/-- The empty snapshot `{}`. -/
def emptyData (V : Type) : PartialData V :=
  { personalDetails := none, incomeDetails := none, deductions := none,
    taxSummary := none }

/-- One key of the JavaScript object spread `{...existing, ...data}`: the
incoming value wins whenever its key is present. -/
def spreadKey {V : Type} (old new : Option V) : Option V :=
  match new with
  | some v => some v
  | none => old

/-- The shallow merge `{...existingData, ...data}` of two partial snapshots. -/
def mergeData {V : Type} (existingData data : PartialData V) : PartialData V :=
  { personalDetails := spreadKey existingData.personalDetails data.personalDetails
    incomeDetails := spreadKey existingData.incomeDetails data.incomeDetails
    deductions := spreadKey existingData.deductions data.deductions
    taxSummary := spreadKey existingData.taxSummary data.taxSummary }

/-- The four top-level section keys of the snapshot. -/
inductive SectionKey where
  | personalDetails
  | incomeDetails
  | deductions
  | taxSummary
deriving Repr, DecidableEq

/-- Key-indexed access to a partial snapshot. -/
def getSection {V : Type} (k : SectionKey) (d : PartialData V) : Option V :=
  match k with
  | .personalDetails => d.personalDetails
  | .incomeDetails => d.incomeDetails
  | .deductions => d.deductions
  | .taxSummary => d.taxSummary

/-- A partial snapshot holding exactly one section. -/
def singleSection {V : Type} (k : SectionKey) (v : V) : PartialData V :=
  match k with
  | .personalDetails => { emptyData V with personalDetails := some v }
  | .incomeDetails => { emptyData V with incomeDetails := some v }
  | .deductions => { emptyData V with deductions := some v }
  | .taxSummary => { emptyData V with taxSummary := some v }

/-- The host serialization: `JSON.stringify` and `JSON.parse` over the stored
text type `S`; `parse` returns `none` when `JSON.parse` throws on the text. -/
structure Codec (V S : Type) where
  stringify : PartialData V → S
  parse : S → Option (PartialData V)

/-- A codec round-trips when parsing a stringified snapshot recovers it —
the behaviour of JSON on every well-formed snapshot. -/
def Roundtrip {V S : Type} (c : Codec V S) : Prop :=
  ∀ d : PartialData V, c.parse (c.stringify d) = some d

namespace ITRStorage

/-- `ITRStorage.load`: read the substrate; absent key or a parse failure
(`JSON.parse` throwing, caught) both yield the empty snapshot. -/
def load {V S : Type} (c : Codec V S) (substrate : Option S) : PartialData V :=
  match substrate with
  | none => emptyData V
  | some text =>
    match c.parse text with
    | some d => d
    | none => emptyData V

/-- Result of one `save` call: the substrate afterwards and the snapshots
passed to `notifyListeners` (each notification reaches every subscriber). -/
structure SaveResult (V S : Type) where
  substrate : Option S
  notified : List (PartialData V)
deriving Repr

/-- `ITRStorage.save`: load, shallow-merge the incoming partial over the
existing snapshot, write the merge back, then notify.  When the substrate
rejects the write (`writeOk = false`, `setItem` throws) the `catch` only
logs: the substrate keeps its old content and no notification fires. -/
def save {V S : Type} (c : Codec V S) (writeOk : Bool) (data : PartialData V)
    (substrate : Option S) : SaveResult V S :=
  let existingData := load c substrate
  let mergedData := mergeData existingData data
  if writeOk then
    { substrate := some (c.stringify mergedData), notified := [mergedData] }
  else
    { substrate := substrate, notified := [] }

/-- Store state carried across `autoSave` calls: the substrate and the
pending debounce timer's captured partial snapshot (`none` when no scheduled
callback is pending). -/
structure StoreState (V S : Type) where
  substrate : Option S
  autoSaveTimer : Option (PartialData V)
deriving Repr

/-- `ITRStorage.autoSave`: clear any pending timer and schedule a fresh
5000 ms timer capturing `data`; nothing is persisted yet. -/
def autoSave {V S : Type} (data : PartialData V) (st : StoreState V S) :
    StoreState V S :=
  { st with autoSaveTimer := some data }

/-- Expiry of the pending debounce timer: runs `save` on the captured
partial; the scheduled callback is consumed.  A no-op when no timer is
pending. -/
def fireAutoSave {V S : Type} (c : Codec V S) (writeOk : Bool)
    (st : StoreState V S) : StoreState V S × List (PartialData V) :=
  match st.autoSaveTimer with
  | none => (st, [])
  | some data =>
    let r := save c writeOk data st.substrate
    ({ substrate := r.substrate, autoSaveTimer := none }, r.notified)

/-- `ITRStorage.import`: parse the backup text; on success `save` the parsed
snapshot and return `true`, on a parse failure return `false` leaving
everything untouched. -/
def importData {V S : Type} (c : Codec V S) (writeOk : Bool) (jsonData : S)
    (substrate : Option S) : Bool × SaveResult V S :=
  match c.parse jsonData with
  | some data => (true, save c writeOk data substrate)
  | none => (false, { substrate := substrate, notified := [] })

/-- The completion flags returned by `ITRStorage.getCompletionStatus`. -/
structure CompletionStatus where
  personalDetails : Bool
  incomeDetails : Bool
  deductions : Bool
  taxSummary : Bool
deriving Repr, DecidableEq

/-- Key-indexed access to a completion-status record. -/
def CompletionStatus.flag (st : CompletionStatus) (k : SectionKey) : Bool :=
  match k with
  | .personalDetails => st.personalDetails
  | .incomeDetails => st.incomeDetails
  | .deductions => st.deductions
  | .taxSummary => st.taxSummary

/-- `ITRStorage.getCompletionStatus`: load and flag each section by the
truthiness `!!` of its value — present (an object, always truthy) or absent. -/
def getCompletionStatus {V S : Type} (c : Codec V S) (substrate : Option S) :
    CompletionStatus :=
  let data := load c substrate
  { personalDetails := data.personalDetails.isSome
    incomeDetails := data.incomeDetails.isSome
    deductions := data.deductions.isSome
    taxSummary := data.taxSummary.isSome }

end ITRStorage

/-! ## Concrete fixtures used by example evaluations and witnesses -/

/-- A `Deductions` record with every field zero and no donations. -/
def zeroDeductions : Deductions :=
  { section80C := ⟨0, 0, 0, 0, 0, 0, 0, 0⟩
    section80D := ⟨0, 0, 0, 0⟩
    otherDeductions := ⟨0, [], 0, 0⟩ }

/-- The single employer of the spec's worked example: gross salary 1,200,000. -/
def exampleEmployer : Employer :=
  { id := "e1", employerName := "Acme", employerPan := "AAAAA0000A",
    grossSalary := 1200000, basicSalary := 0, hra := 0, otherAllowances := 0,
    professionalTax := 0, tdsDeducted := 0, fromDate := "2023-04-01",
    toDate := "2024-03-31" }

/-- The spec's worked example income: exactly one employer, every other
income sub-record disabled. -/
def exampleIncome : IncomeDetails :=
  { salaryIncome := ⟨true, [exampleEmployer]⟩
    housePropertyIncome := ⟨false, []⟩
    capitalGains := ⟨false, 0, 0, 0⟩
    otherSources := ⟨false, 0, 0, 0⟩ }

/-- A small salary income (gross 100) used to exercise the
deductions-exceed-income path. -/
def smallIncome : IncomeDetails :=
  { salaryIncome := ⟨true, [{ exampleEmployer with grossSalary := 100 }]⟩
    housePropertyIncome := ⟨false, []⟩
    capitalGains := ⟨false, 0, 0, 0⟩
    otherSources := ⟨false, 0, 0, 0⟩ }

/-- Deductions of 500 (Section 80E only), exceeding `smallIncome`. -/
def smallIncomeDeductions : Deductions :=
  { zeroDeductions with otherDeductions := ⟨500, [], 0, 0⟩ }

/-- A trivially invertible codec over `ℕ` payloads, whose text type already
distinguishes parseable texts (`some d`) from unparseable ones (`none`).
Used to instantiate the abstract store model in witnesses. -/
def optCodec : Codec ℕ (Option (PartialData ℕ)) :=
  { stringify := fun d => some d, parse := fun s => s }

/-! ## Helper lemmas -/

namespace TaxCalculator

/-- Push an accumulator out of a conditional: one step of the slab fold. -/
theorem ite_acc_add (c : Prop) [Decidable c] (a t : ℚ) :
    (if c then a + t else a) = a + if c then t else 0 := by
  split_ifs <;> simp

/-- Closed form of one bounded slab's contribution in terms of clamped income. -/
theorem slabTerm_eq (x m M r : ℚ) (h : m ≤ M) :
    (if m < x then min (x - m) (M - m) * r / 100 else 0) =
      r / 100 * (min x M - min x m) := by
  rcases le_or_lt x m with h1 | h1
  · rw [if_neg (not_lt.mpr h1), min_eq_left h1, min_eq_left (h1.trans h)]
    ring
  · rw [if_pos h1, min_eq_right h1.le]
    rcases le_total x M with h2 | h2
    · rw [min_eq_left h2, min_eq_left (by linarith)]
      ring
    · rw [min_eq_right h2, min_eq_right (by linarith)]
      ring

/-- Closed form of the unbounded top slab's contribution. -/
theorem topTerm_eq (x m r : ℚ) :
    (if m < x then (x - m) * r / 100 else 0) = r / 100 * (x - min x m) := by
  rcases le_or_lt x m with h1 | h1
  · rw [if_neg (not_lt.mpr h1), min_eq_left h1]
    ring
  · rw [if_pos h1, min_eq_right h1.le]
    ring

/-- Closed form of the old-regime slab fold. -/
theorem calculateTax_old_closed (x : ℚ) :
    calculateTax x false =
      5 / 100 * (min x 500000 - min x 250001) +
      20 / 100 * (min x 1000000 - min x 500001) +
      30 / 100 * (x - min x 1000001) := by
  simp only [calculateTax, TAX_SLABS_OLD, List.foldl, slabAmount, gt_iff_lt,
    ite_acc_add, zero_add]
  rw [slabTerm_eq x 0 250000 0 (by norm_num), slabTerm_eq x 250001 500000 5 (by norm_num),
    slabTerm_eq x 500001 1000000 20 (by norm_num), topTerm_eq x 1000001 30]
  ring

/-- Closed form of the new-regime slab fold. -/
theorem calculateTax_new_closed (x : ℚ) :
    calculateTax x true =
      5 / 100 * (min x 600000 - min x 300001) +
      10 / 100 * (min x 900000 - min x 600001) +
      15 / 100 * (min x 1200000 - min x 900001) +
      20 / 100 * (min x 1500000 - min x 1200001) +
      30 / 100 * (x - min x 1500001) := by
  simp only [calculateTax, TAX_SLABS_NEW, List.foldl, slabAmount, gt_iff_lt,
    ite_acc_add, zero_add]
  rw [slabTerm_eq x 0 300000 0 (by norm_num), slabTerm_eq x 300001 600000 5 (by norm_num),
    slabTerm_eq x 600001 900000 10 (by norm_num),
    slabTerm_eq x 900001 1200000 15 (by norm_num),
    slabTerm_eq x 1200001 1500000 20 (by norm_num), topTerm_eq x 1500001 30]
  ring

/-- The clamped increment `min y c - min x c` is non-negative for `x ≤ y`. -/
theorem minDiff_nonneg (x y c : ℚ) (hxy : x ≤ y) : 0 ≤ min y c - min x c := by
  simp only [min_def]
  split_ifs <;> linarith

/-- The clamped increment is bounded by the raw increment. -/
theorem minDiff_le (x y c : ℚ) (hxy : x ≤ y) : min y c - min x c ≤ y - x := by
  simp only [min_def]
  split_ifs <;> linarith

/-- The clamped increment is monotone in the clamp bound. -/
theorem minDiff_mono (x y c d : ℚ) (hxy : x ≤ y) (hcd : c ≤ d) :
    min y c - min x c ≤ min y d - min x d := by
  simp only [min_def]
  split_ifs <;> linarith

/-- Appending a donation list to the fold is adding its qualifying amounts. -/
theorem foldl_qualifying (l : List Donation) (a : ℚ) :
    l.foldl (fun acc donation => acc + donation.qualifyingAmount) a =
      a + (l.map Donation.qualifyingAmount).sum := by
  induction l generalizing a with
  | nil => simp
  | cons d t ih =>
    simp only [List.foldl, List.map, List.sum_cons, ih]
    ring

end TaxCalculator

/-- An incoming present key wins the spread. -/
theorem spreadKey_some {V : Type} (old : Option V) (v : V) :
    spreadKey old (some v) = some v := rfl

/-- An absent incoming key keeps the existing value. -/
theorem spreadKey_none {V : Type} (old : Option V) : spreadKey old none = old := rfl

/-- Key-indexed reading of a shallow merge. -/
theorem getSection_merge {V : Type} (k : SectionKey) (a b : PartialData V) :
    getSection k (mergeData a b) = spreadKey (getSection k a) (getSection k b) := by
  cases k <;> rfl

/-- A one-section snapshot holds its value under its own key. -/
theorem getSection_single_same {V : Type} (k : SectionKey) (v : V) :
    getSection k (singleSection k v) = some v := by
  cases k <;> rfl

/-- A one-section snapshot is absent under every other key. -/
theorem getSection_single_other {V : Type} (k k' : SectionKey) (v : V)
    (h : k ≠ k') : getSection k (singleSection k' v) = none := by
  cases k <;> cases k' <;> first | rfl | exact absurd rfl h

/-- Every key of the empty snapshot is absent. -/
theorem getSection_empty {V : Type} (k : SectionKey) :
    getSection k (emptyData V) = none := by
  cases k <;> rfl

namespace ITRStorage

/-- A successful `save` persists the stringified merge of the incoming
partial over the loaded snapshot. -/
theorem save_true_substrate {V S : Type} (c : Codec V S) (d : PartialData V)
    (sub : Option S) :
    (save c true d sub).substrate = some (c.stringify (mergeData (load c sub) d)) := rfl

/-- Loading an absent substrate yields the empty snapshot. -/
theorem load_none {V S : Type} (c : Codec V S) :
    load c (none : Option S) = emptyData V := rfl

/-- Under a round-tripping codec, loading a stringified snapshot recovers it. -/
theorem load_stringify {V S : Type} (c : Codec V S) (hrt : Roundtrip c)
    (d : PartialData V) : load c (some (c.stringify d)) = d := by
  simp [load, hrt d]

/-- The completion flag of a section is presence of its key in the loaded
snapshot. -/
theorem getCompletionStatus_flag {V S : Type} (c : Codec V S) (s0 : Option S)
    (k : SectionKey) :
    (getCompletionStatus c s0).flag k = (getSection k (load c s0)).isSome := by
  cases k <;> rfl

end ITRStorage

/-! ## Claim theorems: tax engine -/

open TaxCalculator

/-- C1: the spec's worked example (one employer with gross salary 1,200,000,
all other income disabled, zero deductions, old regime) claims
taxBeforeRelief 172,500, cess 6,900 and total liability 179,400; the code's
live slab table (minimums 250001 / 500001 / 1000001) instead yields
taxableIncome 1,200,000, taxBeforeRelief 172,499.45, surcharge 0,
cess 6,899.978 and total liability 179,399.428 — each slab band is one
currency unit narrower than the documented table, so the claimed values
are missed. -/
theorem c1_example_code_values :
    (calculateCompleteTax exampleIncome zeroDeductions false).taxableIncome = 1200000 ∧
    (calculateCompleteTax exampleIncome zeroDeductions false).taxBeforeRelief = 172499.45 ∧
    (calculateCompleteTax exampleIncome zeroDeductions false).surcharge = 0 ∧
    (calculateCompleteTax exampleIncome zeroDeductions false).educationCess = 6899.978 ∧
    (calculateCompleteTax exampleIncome zeroDeductions false).totalTaxLiability = 179399.428 ∧
    (calculateCompleteTax exampleIncome zeroDeductions false).taxBeforeRelief ≠ 172500 ∧
    (calculateCompleteTax exampleIncome zeroDeductions false).educationCess ≠ 6900 ∧
    (calculateCompleteTax exampleIncome zeroDeductions false).totalTaxLiability ≠ 179400 := by
  norm_num [calculateCompleteTax, calculateTotalIncome, calculateTotalDeductions,
    calculateTax, TAX_SLABS_OLD, slabAmount, calculateSurcharge, calculateEducationCess,
    Section80C.values, Section80D.values, List.foldl, min_def, max_def,
    zeroDeductions, exampleIncome, exampleEmployer]

/-- C3: under the new regime, `calculateCompleteTax` reports zero total
deductions for every income and every deductions input. -/
theorem c3_new_regime_zero_deductions (incomeDetails : IncomeDetails)
    (deductions : Deductions) :
    (calculateCompleteTax incomeDetails deductions true).totalDeductions = 0 := by
  simp [calculateCompleteTax]

/-- C4: `calculateTotalDeductions` equals the 80C sum clamped at 150,000,
plus the 80D sum, the 80E / 80TTA / 80U fields, and the donations'
qualifying amounts; in particular the 80C contribution never exceeds
150,000 even when the eight fields sum above the ceiling. -/
theorem c4_deductions_cap (deductions : Deductions) :
    calculateTotalDeductions deductions =
      min deductions.section80C.values.sum 150000 +
        deductions.section80D.values.sum +
        deductions.otherDeductions.section80E +
        deductions.otherDeductions.section80TTA +
        deductions.otherDeductions.section80U +
        (deductions.otherDeductions.section80G.map Donation.qualifyingAmount).sum ∧
    min deductions.section80C.values.sum 150000 ≤ 150000 := by
  constructor
  · simp only [calculateTotalDeductions, foldl_qualifying, Section80C.values,
      Section80D.values, List.foldl, List.sum_cons, List.sum_nil]
    ring_nf
  · exact min_le_right _ _

/-- C5: for both regimes, `calculateTax` is monotonically non-decreasing in
taxable income, and it is 30%-Lipschitz (30% being the top marginal rate),
so it is continuous with no jump at any bracket boundary beyond the
marginal-rate slope. -/
theorem c5_tax_monotone_lipschitz (useNewRegime : Bool) (x y : ℚ) (hxy : x ≤ y) :
    calculateTax x useNewRegime ≤ calculateTax y useNewRegime ∧
    calculateTax y useNewRegime - calculateTax x useNewRegime ≤ 30 / 100 * (y - x) := by
  cases useNewRegime with
  | false =>
    rw [calculateTax_old_closed, calculateTax_old_closed]
    have h0 := minDiff_nonneg x y 250001 hxy
    have h1 := minDiff_mono x y 250001 500000 hxy (by norm_num)
    have h2 := minDiff_mono x y 500000 500001 hxy (by norm_num)
    have h3 := minDiff_mono x y 500001 1000000 hxy (by norm_num)
    have h4 := minDiff_mono x y 1000000 1000001 hxy (by norm_num)
    have h5 := minDiff_le x y 1000001 hxy
    constructor <;> linarith
  | true =>
    rw [calculateTax_new_closed, calculateTax_new_closed]
    have h0 := minDiff_nonneg x y 300001 hxy
    have h1 := minDiff_mono x y 300001 600000 hxy (by norm_num)
    have h2 := minDiff_mono x y 600000 600001 hxy (by norm_num)
    have h3 := minDiff_mono x y 600001 900000 hxy (by norm_num)
    have h4 := minDiff_mono x y 900000 900001 hxy (by norm_num)
    have h5 := minDiff_mono x y 900001 1200000 hxy (by norm_num)
    have h6 := minDiff_mono x y 1200000 1200001 hxy (by norm_num)
    have h7 := minDiff_mono x y 1200001 1500000 hxy (by norm_num)
    have h8 := minDiff_mono x y 1500000 1500001 hxy (by norm_num)
    have h9 := minDiff_le x y 1500001 hxy
    constructor <;> linarith

/-- C5 witness: the monotonicity and Lipschitz bound instantiated at the
concrete incomes 100,000 ≤ 1,300,000 (old regime). -/
theorem c5_tax_monotone_lipschitz_witness :
    (100000 : ℚ) ≤ 1300000 ∧
    (calculateTax 100000 false ≤ calculateTax 1300000 false ∧
      calculateTax 1300000 false - calculateTax 100000 false ≤
        30 / 100 * (1300000 - 100000)) :=
  ⟨by norm_num, c5_tax_monotone_lipschitz false 100000 1300000 (by norm_num)⟩

/-- C10: `calculateCompleteTax` floors taxable income at
`max (totalIncome - totalDeductions) 0`; and whenever total deductions
exceed total income under the old regime, taxable income and every tax
component (tax before relief, surcharge, cess, total liability) are 0. -/
theorem c10_taxable_income_floor (incomeDetails : IncomeDetails)
    (deductions : Deductions) (useNewRegime : Bool) :
    (calculateCompleteTax incomeDetails deductions useNewRegime).taxableIncome =
      max ((calculateCompleteTax incomeDetails deductions useNewRegime).totalIncome -
        (calculateCompleteTax incomeDetails deductions useNewRegime).totalDeductions) 0 ∧
    (calculateTotalIncome incomeDetails < calculateTotalDeductions deductions →
      (calculateCompleteTax incomeDetails deductions false).taxableIncome = 0 ∧
      (calculateCompleteTax incomeDetails deductions false).taxBeforeRelief = 0 ∧
      (calculateCompleteTax incomeDetails deductions false).surcharge = 0 ∧
      (calculateCompleteTax incomeDetails deductions false).educationCess = 0 ∧
      (calculateCompleteTax incomeDetails deductions false).totalTaxLiability = 0) := by
  constructor
  · rfl
  · intro hlt
    have hti : (calculateCompleteTax incomeDetails deductions false).taxableIncome = 0 := by
      simp only [calculateCompleteTax, Bool.false_eq_true, if_false]
      exact max_eq_right (by linarith)
    have htax : calculateTax 0 false = 0 := by
      norm_num [calculateTax, TAX_SLABS_OLD, slabAmount, List.foldl]
    refine ⟨hti, ?_, ?_, ?_, ?_⟩ <;>
      simp only [calculateCompleteTax, Bool.false_eq_true, if_false] at hti ⊢ <;>
      rw [hti] <;>
      norm_num [htax, calculateSurcharge, calculateEducationCess]

/-- C10 witness: with income 100 and deductions 500 (old regime) the
deductions exceed the income and the resulting liability fields are zero. -/
theorem c10_taxable_income_floor_witness :
    calculateTotalIncome smallIncome < calculateTotalDeductions smallIncomeDeductions ∧
    (calculateCompleteTax smallIncome smallIncomeDeductions false).taxableIncome = 0 ∧
    (calculateCompleteTax smallIncome smallIncomeDeductions false).totalTaxLiability = 0 := by
  have hlt : calculateTotalIncome smallIncome <
      calculateTotalDeductions smallIncomeDeductions := by
    norm_num [calculateTotalIncome, calculateTotalDeductions, Section80C.values,
      Section80D.values, List.foldl, min_def, smallIncome, smallIncomeDeductions,
      zeroDeductions, exampleEmployer]
  have h := (c10_taxable_income_floor smallIncome smallIncomeDeductions false).2 hlt
  exact ⟨hlt, h.1, h.2.2.2.2⟩

/-! ## Claim theorems: record store -/

open ITRStorage

/-- C2: under a round-tripping codec, saving `{sectionA: x}` and then
`{sectionB: y}` (distinct keys) persists a snapshot holding `x` under
`sectionA` and `y` under `sectionB`; saving `{sectionA: x1}` and then
`{sectionA: x2}` persists `x2` entirely under `sectionA` while every other
section keeps its pre-save value — the merge is a shallow, per-section
replacement. -/
theorem c2_merge_save {V S : Type} (c : Codec V S) (hrt : Roundtrip c)
    (s0 : Option S) :
    (∀ (kA kB : SectionKey) (x y : V), kA ≠ kB →
      getSection kA (load c (save c true (singleSection kB y)
          (save c true (singleSection kA x) s0).substrate).substrate) = some x ∧
      getSection kB (load c (save c true (singleSection kB y)
          (save c true (singleSection kA x) s0).substrate).substrate) = some y) ∧
    (∀ (kA : SectionKey) (x1 x2 : V) (k : SectionKey),
      getSection kA (load c (save c true (singleSection kA x2)
          (save c true (singleSection kA x1) s0).substrate).substrate) = some x2 ∧
      (k ≠ kA →
        getSection k (load c (save c true (singleSection kA x2)
            (save c true (singleSection kA x1) s0).substrate).substrate) =
          getSection k (load c s0))) := by
  constructor
  · intro kA kB x y hne
    rw [save_true_substrate, save_true_substrate, load_stringify c hrt,
      load_stringify c hrt]
    constructor
    · rw [getSection_merge, getSection_single_other kA kB y hne, spreadKey_none,
        getSection_merge, getSection_single_same, spreadKey_some]
    · rw [getSection_merge, getSection_single_same, spreadKey_some]
  · intro kA x1 x2 k
    constructor
    · rw [save_true_substrate, save_true_substrate, load_stringify c hrt,
        load_stringify c hrt, getSection_merge, getSection_single_same, spreadKey_some]
    · intro hk
      rw [save_true_substrate, save_true_substrate, load_stringify c hrt,
        load_stringify c hrt, getSection_merge, getSection_single_other k kA x2 hk,
        spreadKey_none, getSection_merge, getSection_single_other k kA x1 hk,
        spreadKey_none]

/-- C2 witness: the merge-save behaviour instantiated on the trivial codec,
saving `personalDetails := 1` and then `incomeDetails := 2` over an empty
substrate. -/
theorem c2_merge_save_witness :
    Roundtrip optCodec ∧
    SectionKey.personalDetails ≠ SectionKey.incomeDetails ∧
    getSection SectionKey.personalDetails
      (load optCodec (save optCodec true (singleSection SectionKey.incomeDetails 2)
        (save optCodec true (singleSection SectionKey.personalDetails 1)
          none).substrate).substrate) = some 1 ∧
    getSection SectionKey.incomeDetails
      (load optCodec (save optCodec true (singleSection SectionKey.incomeDetails 2)
        (save optCodec true (singleSection SectionKey.personalDetails 1)
          none).substrate).substrate) = some 2 := by
  have hrt : Roundtrip optCodec := fun d => rfl
  have h := (c2_merge_save optCodec hrt none).1 SectionKey.personalDetails
    SectionKey.incomeDetails 1 2 (by decide)
  exact ⟨hrt, by decide, h.1, h.2⟩

/-- C6: two `autoSave` calls inside one debounce window leave `p2` as the
only pending partial; when the timer then fires, the run is identical to one
where `p1` was never scheduled, and the only write ever persisted is the
merge of `p2` alone — `p1` is discarded entirely, not merged into `p2`. -/
theorem c6_autosave_debounce {V S : Type} (c : Codec V S) (writeOk : Bool)
    (st : StoreState V S) (p1 p2 : PartialData V) :
    (autoSave p2 (autoSave p1 st)).autoSaveTimer = some p2 ∧
    fireAutoSave c writeOk (autoSave p2 (autoSave p1 st)) =
      fireAutoSave c writeOk (autoSave p2 st) ∧
    (fireAutoSave c true (autoSave p2 (autoSave p1 st))).1.substrate =
      some (c.stringify (mergeData (load c st.substrate) p2)) ∧
    (fireAutoSave c true (autoSave p2 (autoSave p1 st))).2 =
      [mergeData (load c st.substrate) p2] :=
  ⟨rfl, rfl, rfl, rfl⟩

/-- C7: importing text the codec cannot parse returns `false`, leaves the
substrate (hence any later `load`) unchanged and notifies nobody; importing
parseable text performs exactly a merge-`save` of the parsed snapshot and
returns `true`. -/
theorem c7_import_behavior {V S : Type} (c : Codec V S) (writeOk : Bool)
    (text : S) (s0 : Option S) :
    (c.parse text = none →
      (importData c writeOk text s0).1 = false ∧
      (importData c writeOk text s0).2.substrate = s0 ∧
      load c (importData c writeOk text s0).2.substrate = load c s0 ∧
      (importData c writeOk text s0).2.notified = []) ∧
    (∀ d : PartialData V, c.parse text = some d →
      importData c writeOk text s0 = (true, save c writeOk d s0)) := by
  constructor
  · intro h
    simp [importData, h]
  · intro d h
    simp [importData, h]

/-- C7 witness: on the trivial codec, the unparseable text `none` fails an
  `importData` over a non-empty substrate without touching it, and the
parseable text holding `deductions := 7` succeeds as a save. -/
theorem c7_import_behavior_witness :
    optCodec.parse none = none ∧
    (importData optCodec true none
      (some (optCodec.stringify (singleSection SectionKey.personalDetails 5)))).1 = false ∧
    (importData optCodec true none
      (some (optCodec.stringify (singleSection SectionKey.personalDetails 5)))).2.substrate =
      some (optCodec.stringify (singleSection SectionKey.personalDetails 5)) ∧
    (importData optCodec true none
      (some (optCodec.stringify (singleSection SectionKey.personalDetails 5)))).2.notified = [] ∧
    optCodec.parse (some (singleSection SectionKey.deductions 7)) =
      some (singleSection SectionKey.deductions 7) ∧
    importData optCodec true (some (singleSection SectionKey.deductions 7)) none =
      (true, save optCodec true (singleSection SectionKey.deductions 7) none) := by
  have h1 := (c7_import_behavior optCodec true none
    (some (optCodec.stringify (singleSection SectionKey.personalDetails 5)))).1 rfl
  have h2 := (c7_import_behavior optCodec true
    (some (singleSection SectionKey.deductions 7)) none).2
    (singleSection SectionKey.deductions 7) rfl
  exact ⟨rfl, h1.1, h1.2.1, h1.2.2.2, rfl, h2⟩

/-- C8: each completion flag is exactly presence of that section key in the
loaded snapshot; on an empty store all four flags are false; and after
saving a single section over an empty store (round-tripping codec), that
section's flag is true and every other section's flag is false. -/
theorem c8_completion_status {V S : Type} (c : Codec V S) (hrt : Roundtrip c) :
    (∀ (s0 : Option S) (k : SectionKey),
      (getCompletionStatus c s0).flag k = (getSection k (load c s0)).isSome) ∧
    (∀ k : SectionKey, (getCompletionStatus c (none : Option S)).flag k = false) ∧
    (∀ (k k' : SectionKey) (v : V),
      (getCompletionStatus c
        (save c true (singleSection k v) none).substrate).flag k = true ∧
      (k' ≠ k →
        (getCompletionStatus c
          (save c true (singleSection k v) none).substrate).flag k' = false)) := by
  refine ⟨getCompletionStatus_flag c, fun k => by cases k <;> rfl, fun k k' v => ?_⟩
  constructor
  · rw [getCompletionStatus_flag, save_true_substrate, load_stringify c hrt,
      getSection_merge, getSection_single_same, spreadKey_some]
    rfl
  · intro hk
    rw [getCompletionStatus_flag, save_true_substrate, load_stringify c hrt,
      getSection_merge, getSection_single_other k' k v hk, spreadKey_none,
      load_none, getSection_empty]
    rfl

/-- C8 witness: on the trivial codec, after saving only the `deductions`
section over an empty store, the `deductions` flag is true and the
`taxSummary` flag is false. -/
theorem c8_completion_status_witness :
    Roundtrip optCodec ∧
    SectionKey.taxSummary ≠ SectionKey.deductions ∧
    (getCompletionStatus optCodec
      (save optCodec true (singleSection SectionKey.deductions 3)
        none).substrate).flag SectionKey.deductions = true ∧
    (getCompletionStatus optCodec
      (save optCodec true (singleSection SectionKey.deductions 3)
        none).substrate).flag SectionKey.taxSummary = false := by
  have hrt : Roundtrip optCodec := fun d => rfl
  have h := (c8_completion_status optCodec hrt).2.2 SectionKey.deductions
    SectionKey.taxSummary 3
  exact ⟨hrt, by decide, h.1, h.2 (by decide)⟩

/-- C9 counterexample: when the substrate rejects the write (`writeOk =
false`), the notification list is empty — it does NOT equal the singleton
carrying the merged snapshot that the claim says has already fired, because
`notifyListeners` sits after `setItem` inside the `try` block and the throw
skips it. -/
theorem c9_notify_counterexample :
    (save optCodec false (singleSection SectionKey.personalDetails 1) none).substrate =
      none ∧
    ¬ ((save optCodec false (singleSection SectionKey.personalDetails 1) none).notified =
        [mergeData (load optCodec none) (singleSection SectionKey.personalDetails 1)]) := by
  exact ⟨rfl, by decide⟩

/-- C9 (amended): when the persistence substrate rejects the write during
`save`, the save is dropped silently — the persisted state is unchanged and
no exception reaches the caller (`save` returns normally) — and no
subscriber notification fires at all: notification occurs only after the
write has succeeded, so it never has to be rolled back. -/
theorem c9_rejected_write_silent {V S : Type} (c : Codec V S)
    (d : PartialData V) (s0 : Option S) :
    (save c false d s0).substrate = s0 ∧ (save c false d s0).notified = [] :=
  ⟨rfl, rfl⟩

end ITR
